import Mathlib

/-!
Shallow embedding of the `http_stress_test` CLI tool (`src/main.rs`).

The program builds one HTTP request template from command-line arguments
(`build_request`), dispatches `count` concurrent executions of it, classifies
each outcome against the expected status code, aggregates success/failure
counters, and optionally appends log lines to a file.

Rust strings are modelled as `List Char`; the string helpers below mirror the
exact `str` operations the source uses (`trim`, `split(":")`, `starts_with`).
External library behaviour that the source only calls into (reqwest's
`Url::from_str`, the network itself) is abstracted as oracle parameters:
`parseUrl` decides URL validity, `respond` gives the outcome of the i-th
dispatched request.
-/

namespace HttpStress

/-- The `HttpMethod` enum of `main.rs` (clap `ValueEnum`). -/
inductive HttpMethod
  | GET
  | POST
  | PUT
  | DELETE
  | PATCH
  | HEAD
  | OPTIONS
  deriving DecidableEq, Repr

/-- The parsed command-line arguments (`struct Args` in `main.rs`).
`count : u32` and `delay : u32` are modelled as `Nat`, `expected_code : u16`
as `Nat`. -/
structure Args where
  addr : List Char
  count : Nat
  method : HttpMethod
  body : Option (List Char)
  delay : Nat
  expected_code : Nat
  logs : Bool
  headers : Option (List (List Char))

/-- Model of Rust `str::trim`: drop leading and trailing whitespace. -/
def trimChars (s : List Char) : List Char :=
  ((s.dropWhile Char.isWhitespace).reverse.dropWhile Char.isWhitespace).reverse

/-- Model of Rust `str::split(":")` collected into a vector: the maximal
colon-free segments, keeping empty segments (so `"a:b"` gives two parts,
`"ab"` one part, `":"` two empty parts). -/
def splitOnColon : List Char → List (List Char)
  | [] => [[]]
  | c :: rest =>
    match splitOnColon rest with
    | h :: t => if c = ':' then [] :: h :: t else (c :: h) :: t
    | [] => if c = ':' then [[], []] else [[c]]

/-- Model of Rust `str::starts_with` for a string pattern. -/
def startsWithChars (s p : List Char) : Bool :=
  match p, s with
  | [], _ => true
  | _ :: _, [] => false
  | pc :: ps, sc :: ss => pc == sc && startsWithChars ss ps

/-- `add_http_if_missing` from `main.rs`: an address already carrying
`http://` or `https://` is returned verbatim, otherwise `https://` is
prepended. -/
def add_http_if_missing (url : List Char) : List Char :=
  if startsWithChars url "http://".data || startsWithChars url "https://".data then
    url
  else
    "https://".data ++ url

/-- The three `exit(1)` paths of `build_request`: a header that does not
split into exactly two colon-delimited parts, a URL that fails to parse,
and a body supplied with a method that does not allow one. -/
inductive BuildError
  | invalidHeader (header : List Char)
  | invalidUrl (url : List Char)
  | bodyNotAllowed
  deriving DecidableEq, Repr

/-- One header string parsed as in `build_request`: trim, split on `":"`,
require exactly two parts, trim each part. -/
def parseHeader (header : List Char) : Except BuildError (List Char × List Char) :=
  match splitOnColon (trimChars header) with
  | [k, v] => .ok (trimChars k, trimChars v)
  | _ => .error (.invalidHeader header)

/-- The `iter().map(...).collect()` over the header vector: first malformed
header aborts. -/
def parseHeaderList : List (List Char) → Except BuildError (List (List Char × List Char))
  | [] => .ok []
  | h :: t => do
    let kv ← parseHeader h
    let rest ← parseHeaderList t
    pure (kv :: rest)

/-- The `match args.headers` at the top of `build_request`: `None` gives an
empty map. The Rust code collects into a `HashMap`; the claims never inspect
the map, so an association list suffices. -/
def parseHeaders : Option (List (List Char)) → Except BuildError (List (List Char × List Char))
  | none => .ok []
  | some hs => parseHeaderList hs

/-- The validated request (`reqwest::Request`) produced by `build_request`. -/
structure Request where
  method : HttpMethod
  url : List Char
  headers : List (List Char × List Char)
  body : Option (List Char)
  deriving DecidableEq, Repr

/-- `build_request` from `main.rs`. The Rust function prints and calls
`exit(1)` on each failure path; the model returns the corresponding
`BuildError` instead. `parseUrl` abstracts reqwest's `Url::from_str`
(external library code): it decides whether the scheme-defaulted URL string
parses. The order of checks follows the source: headers, then URL, then
body/method compatibility. -/
def build_request (parseUrl : List Char → Bool) (args : Args) : Except BuildError Request :=
  match parseHeaders args.headers with
  | .error e => .error e
  | .ok hm =>
    let urlStr := add_http_if_missing args.addr
    if parseUrl urlStr then
      match args.body with
      | some b =>
        if args.method = .POST ∨ args.method = .PUT ∨ args.method = .PATCH then
          .ok { method := args.method, url := urlStr, headers := hm, body := some b }
        else
          .error .bodyNotAllowed
      | none => .ok { method := args.method, url := urlStr, headers := hm, body := none }
    else
      .error (.invalidUrl urlStr)

/-- The outcome of one request execution: `client.execute(request).await`
either yields a response (status code and body text) or a transport error. -/
inductive ExecOutcome
  | response (status : Nat) (text : List Char)
  | transportError (desc : List Char)
  deriving DecidableEq, Repr

/-- Success/failure classification of one execution. -/
inductive Verdict
  | success
  | failure
  deriving DecidableEq, Repr

/-- The classification performed inside each spawned task: a transport error
is a failure; a response is a failure exactly when
`response.status().as_u16() != args.expected_code`, otherwise a success. -/
def classify (expected : Nat) : ExecOutcome → Verdict
  | .response status _ => if status ≠ expected then .failure else .success
  | .transportError _ => .failure

/-- The level of one appended log line (`LogLevel` in `main.rs`). -/
inductive LogLevel
  | info
  | error
  deriving DecidableEq, BEq, Repr

/-- Lines appended by one `log_to_file` call: one line when logging is
enabled, none otherwise. -/
def logIf (logs : Bool) (lvl : LogLevel) : List LogLevel :=
  if logs then [lvl] else []

/-- The shared aggregate state: the two atomic counters and the sequence of
log-line levels appended to the log file so far. -/
structure RunState where
  successes : Nat
  fails : Nat
  log : List LogLevel
  deriving DecidableEq, Repr

/-- The body of one spawned task (lines 96-137 of `main.rs`): exactly one
counter is incremented, and one log line is appended when logging is
enabled — `ERROR` for an unexpected status or a transport error, `INFO`
for an expected-status response. -/
def recordOutcome (expected : Nat) (logs : Bool) (st : RunState) (o : ExecOutcome) : RunState :=
  match o with
  | .response status _ =>
    if status ≠ expected then
      { st with fails := st.fails + 1, log := st.log ++ logIf logs .error }
    else
      { st with successes := st.successes + 1, log := st.log ++ logIf logs .info }
  | .transportError _ =>
    { st with fails := st.fails + 1, log := st.log ++ logIf logs .error }

/-- Events on the dispatcher's own control path. -/
inductive DispatchEvent
  | sleep (ms : Nat)
  | launch
  deriving DecidableEq, Repr

/-- The dispatch loop `for _ in 0..count` (lines 85-138 of `main.rs`): each
iteration first suspends for `delay` milliseconds when `args.delay != 0`,
then spawns one execution task. The sleep precedes the spawn in every
iteration, including the first. -/
def dispatchTrace : Nat → Nat → List DispatchEvent
  | 0, _ => []
  | n + 1, delay =>
    (if delay ≠ 0 then [DispatchEvent.sleep delay] else [])
      ++ DispatchEvent.launch :: dispatchTrace n delay

/-- Number of sleep events on the dispatcher path. -/
def countSleeps (t : List DispatchEvent) : Nat :=
  t.countP fun e =>
    match e with
    | .sleep _ => true
    | .launch => false

/-- Total milliseconds slept on the dispatcher path: a lower bound on the
run's elapsed wall-clock time, independent of per-request latency. -/
def totalSleepMs (t : List DispatchEvent) : Nat :=
  (t.map fun e =>
    match e with
    | .sleep d => d
    | .launch => 0).sum

/-- Observable result of one `main` run: process exit code, number of
requests issued to the network, final counter values, and the levels of all
log lines appended to the (freshly truncated) log file. -/
structure MainResult where
  exitCode : Nat
  requestsIssued : Nat
  successes : Nat
  fails : Nat
  log : List LogLevel
  deriving DecidableEq, Repr

/-- `main` from `main.rs`. A configuration error in `build_request`
terminates the process with exit code 1 before any request is issued.
Otherwise all `count` executions are dispatched; `respond i` is the network's
outcome for the i-th one. After the join barrier (`for task in tasks`,
`task.await`) the final counters are read and one final `INFO` summary line
is logged; the process then exits with code 0. The fold order is one
interleaving of the concurrent increments; the counters are commutative, so
the final counts are interleaving-independent. -/
def runMain (parseUrl : List Char → Bool) (respond : Nat → ExecOutcome) (args : Args) :
    MainResult :=
  match build_request parseUrl args with
  | .error _ => { exitCode := 1, requestsIssued := 0, successes := 0, fails := 0, log := [] }
  | .ok _ =>
    let outcomes := (List.range args.count).map respond
    let st := outcomes.foldl (recordOutcome args.expected_code args.logs) ⟨0, 0, []⟩
    { exitCode := 0
      requestsIssued := args.count
      successes := st.successes
      fails := st.fails
      log := st.log ++ logIf args.logs .info }

/-! ## Helper lemmas -/

/-- Each recorded outcome increments exactly one of the two counters: their
sum grows by exactly one. -/
theorem recordOutcome_counterSum (expected : Nat) (logs : Bool) (st : RunState)
    (o : ExecOutcome) :
    (recordOutcome expected logs st o).successes + (recordOutcome expected logs st o).fails
      = st.successes + st.fails + 1 := by
  cases o with
  | response status text =>
    simp only [recordOutcome]
    split <;> simp <;> omega
  | transportError d =>
    simp only [recordOutcome]
    omega

/-- Folding the per-task recording over any outcome list adds exactly the
list's length to the counter sum. -/
theorem foldl_record_counterSum (expected : Nat) (logs : Bool) (os : List ExecOutcome) :
    ∀ st : RunState,
      (os.foldl (recordOutcome expected logs) st).successes
          + (os.foldl (recordOutcome expected logs) st).fails
        = st.successes + st.fails + os.length := by
  induction os with
  | nil => intro st; simp
  | cons o os ih =>
    intro st
    simp only [List.foldl_cons, List.length_cons]
    rw [ih]
    have h := recordOutcome_counterSum expected logs st o
    omega

/-- A list prefixed with `p` starts with `p`. -/
theorem startsWithChars_append (p s : List Char) : startsWithChars (p ++ s) p = true := by
  induction p with
  | nil => cases s <;> rfl
  | cons c cs ih => simp [startsWithChars, ih]

/-- The output of `add_http_if_missing` always carries a scheme. -/
theorem add_http_if_missing_hasScheme (url : List Char) :
    (startsWithChars (add_http_if_missing url) "http://".data
      || startsWithChars (add_http_if_missing url) "https://".data) = true := by
  unfold add_http_if_missing
  split
  · assumption
  · rw [Bool.or_eq_true]
    exact Or.inr (startsWithChars_append "https://".data url)

/-- `add_http_if_missing` is idempotent. -/
theorem add_http_if_missing_idem (url : List Char) :
    add_http_if_missing (add_http_if_missing url) = add_http_if_missing url := by
  have h := add_http_if_missing_hasScheme url
  conv_lhs => rw [add_http_if_missing]
  rw [if_pos h]

/-! ## Claim theorems -/

/-- C1: once all `count` dispatched executions have completed and the join
barrier has returned, the final success counter plus the final failure
counter equals `count`; each execution increments exactly one of the two
counters exactly once. -/
theorem claim_C1_counter_sum_invariant (parseUrl : List Char → Bool)
    (respond : Nat → ExecOutcome) (args : Args) (t : Request)
    (hok : build_request parseUrl args = .ok t) :
    ((runMain parseUrl respond args).successes + (runMain parseUrl respond args).fails
        = args.count) ∧
    ∀ expected logs st o,
      (recordOutcome expected logs st o).successes + (recordOutcome expected logs st o).fails
        = st.successes + st.fails + 1 := by
  refine ⟨?_, recordOutcome_counterSum⟩
  simp [runMain, hok, foldl_record_counterSum]

def urlOk : List Char → Bool := fun _ => true

def allOk : Nat → ExecOutcome := fun _ => .response 200 []

def sampleArgs : Args :=
  { addr := "example.com".data, count := 2, method := .GET, body := none,
    delay := 0, expected_code := 200, logs := false, headers := none }

def sampleRequest : Request :=
  { method := .GET, url := "https://example.com".data, headers := [], body := none }

/-- Witness for C1 at a concrete configuration with `count = 2`. -/
theorem claim_C1_witness :
    (runMain urlOk allOk sampleArgs).successes + (runMain urlOk allOk sampleArgs).fails
      = sampleArgs.count :=
  (claim_C1_counter_sum_invariant urlOk allOk sampleArgs sampleRequest rfl).1

/-- C2: a transport failure is always classified as a failure; a response is
a success iff its status equals the expected code exactly; the recording step
increments exactly the matching counter and leaves the other unchanged. -/
theorem claim_C2_classification (expected status : Nat) (text desc : List Char)
    (logs : Bool) (st : RunState) :
    classify expected (.transportError desc) = .failure ∧
    (classify expected (.response status text) = .success ↔ status = expected) ∧
    (status = expected →
      (recordOutcome expected logs st (.response status text)).successes = st.successes + 1 ∧
      (recordOutcome expected logs st (.response status text)).fails = st.fails) ∧
    (status ≠ expected →
      (recordOutcome expected logs st (.response status text)).fails = st.fails + 1 ∧
      (recordOutcome expected logs st (.response status text)).successes = st.successes) ∧
    (recordOutcome expected logs st (.transportError desc)).fails = st.fails + 1 ∧
    (recordOutcome expected logs st (.transportError desc)).successes = st.successes := by
  by_cases h : status = expected <;> simp [classify, recordOutcome, h]

/-- Witness for C2 at concrete outcomes. -/
theorem claim_C2_witness :
    classify 200 (.transportError "refused".data) = .failure ∧
    (classify 200 (.response 200 []) = .success ↔ (200 : Nat) = 200) ∧
    (recordOutcome 200 false ⟨1, 1, []⟩ (.response 404 [])).fails = 2 :=
  ⟨(claim_C2_classification 200 200 [] "refused".data false ⟨1, 1, []⟩).1,
   (claim_C2_classification 200 200 [] "refused".data false ⟨1, 1, []⟩).2.1,
   ((claim_C2_classification 200 404 [] "refused".data false ⟨1, 1, []⟩).2.2.2.1
      (by decide)).1⟩

/-- C5: an address already starting with `http://` or `https://` is used
verbatim; otherwise the dispatched URL string is `https://` prepended to the
address. -/
theorem claim_C5_scheme_defaulting (url : List Char) :
    ((startsWithChars url "http://".data || startsWithChars url "https://".data) = true →
      add_http_if_missing url = url) ∧
    ((startsWithChars url "http://".data || startsWithChars url "https://".data) = false →
      add_http_if_missing url = "https://".data ++ url) := by
  constructor <;> intro h <;> simp [add_http_if_missing, h]

/-- Witness for C5: one address with a scheme, one without. -/
theorem claim_C5_witness :
    add_http_if_missing "http://h".data = "http://h".data ∧
    add_http_if_missing "h".data = "https://".data ++ "h".data :=
  ⟨(claim_C5_scheme_defaulting "http://h".data).1 (by decide),
   (claim_C5_scheme_defaulting "h".data).2 (by decide)⟩

/-- C9: the scheme-defaulting transformation is idempotent, and its output
always starts with `http://` or `https://`. -/
theorem claim_C9_idempotent_and_schemed (url : List Char) :
    add_http_if_missing (add_http_if_missing url) = add_http_if_missing url ∧
    (startsWithChars (add_http_if_missing url) "http://".data
      || startsWithChars (add_http_if_missing url) "https://".data) = true :=
  ⟨add_http_if_missing_idem url, add_http_if_missing_hasScheme url⟩

/-- C6 counterexample: with `count = 3` and `delay = 100` the first event on
the dispatcher path is already a sleep (the loop sleeps before every launch,
including the first), and three delays occur, not two. -/
theorem claim_C6_counterexample :
    (dispatchTrace 3 100).head? = some (.sleep 100) ∧
    countSleeps (dispatchTrace 3 100) = 3 ∧
    ¬ countSleeps (dispatchTrace 3 100) = 2 := by
  decide

/-- C6 amended: with `delay ≠ 0` the dispatcher sleeps once before every
launch, including the first, so `count` delays occur in total, the summed
sleep time is `count * delay`, and (for a nonempty run) the very first event
is a sleep. -/
theorem claim_C6_amended_delay_before_every_launch (count delay : Nat) (hd : delay ≠ 0) :
    countSleeps (dispatchTrace count delay) = count ∧
    totalSleepMs (dispatchTrace count delay) = count * delay ∧
    (0 < count → (dispatchTrace count delay).head? = some (.sleep delay)) := by
  induction count with
  | zero => simp [dispatchTrace, countSleeps, totalSleepMs]
  | succ n ih =>
    have ht : dispatchTrace (n + 1) delay
        = .sleep delay :: .launch :: dispatchTrace n delay := by
      simp [dispatchTrace, hd]
    refine ⟨?_, ?_, ?_⟩
    · rw [ht]
      simp [countSleeps, List.countP_cons] at *
      omega
    · rw [ht]
      simp only [totalSleepMs, List.map_cons, List.sum_cons] at *
      rw [ih.2.1, Nat.succ_mul]
      omega
    · intro _
      rw [ht]
      rfl

/-- Witness for C6 amended at `count = 3`, `delay = 100`: three sleeps,
`3 * 100` ms total, first event a sleep. -/
theorem claim_C6_amended_witness :
    countSleeps (dispatchTrace 3 100) = 3 ∧
    totalSleepMs (dispatchTrace 3 100) = 3 * 100 ∧
    (dispatchTrace 3 100).head? = some (.sleep 100) := by
  have h := claim_C6_amended_delay_before_every_launch 3 100 (by decide)
  exact ⟨h.1, h.2.1, h.2.2 (by decide)⟩

/-- A header whose trimmed form does not split into exactly two
colon-delimited parts makes `parseHeader` fail with `invalidHeader`. -/
theorem parseHeader_error_of_badSplit (h : List Char)
    (hbad : (splitOnColon (trimChars h)).length ≠ 2) :
    parseHeader h = .error (.invalidHeader h) := by
  unfold parseHeader
  split
  · simp_all
  · rfl

/-- `parseHeader` only ever fails with `invalidHeader` naming its input. -/
theorem parseHeader_error_shape (a : List Char) (e : BuildError)
    (h : parseHeader a = .error e) : e = .invalidHeader a := by
  unfold parseHeader at h
  split at h
  · simp at h
  · injection h with h2
    exact h2.symm

/-- If any header in the list is malformed, the whole header pass fails with
an `invalidHeader` error. -/
theorem parseHeaderList_error_of_mem (hs : List (List Char)) (h : List Char)
    (hmem : h ∈ hs) (hbad : (splitOnColon (trimChars h)).length ≠ 2) :
    ∃ b, parseHeaderList hs = .error (.invalidHeader b) := by
  induction hs with
  | nil => cases hmem
  | cons a as ih =>
    cases hmem with
    | head =>
      refine ⟨h, ?_⟩
      simp only [parseHeaderList, parseHeader_error_of_badSplit h hbad]
      rfl
    | tail _ hmem2 =>
      cases hpa : parseHeader a with
      | error e =>
        have he := parseHeader_error_shape a e hpa
        refine ⟨a, ?_⟩
        simp only [parseHeaderList, hpa, he]
        rfl
      | ok kv =>
        obtain ⟨b, hb⟩ := ih hmem2
        refine ⟨b, ?_⟩
        simp only [parseHeaderList, hpa, hb]
        rfl

/-- C3: a configuration containing a header string that does not split into
exactly two colon-delimited parts makes request building fail with a header
configuration error; the process exits with code 1 and no request is ever
issued. -/
theorem claim_C3_bad_header_aborts (parseUrl : List Char → Bool)
    (respond : Nat → ExecOutcome) (args : Args) (hs : List (List Char)) (h : List Char)
    (hhs : args.headers = some hs) (hmem : h ∈ hs)
    (hbad : (splitOnColon (trimChars h)).length ≠ 2) :
    (∃ b, build_request parseUrl args = .error (.invalidHeader b)) ∧
    (runMain parseUrl respond args).exitCode = 1 ∧
    (runMain parseUrl respond args).requestsIssued = 0 := by
  obtain ⟨b, hb⟩ := parseHeaderList_error_of_mem hs h hmem hbad
  have hbr : build_request parseUrl args = .error (.invalidHeader b) := by
    unfold build_request
    rw [hhs]
    simp [parseHeaders, hb]
  refine ⟨⟨b, hbr⟩, ?_, ?_⟩ <;> simp [runMain, hbr]

def badHeaderArgs : Args :=
  { addr := "example.com".data, count := 1, method := .GET, body := none,
    delay := 0, expected_code := 200, logs := false, headers := some ["nocolon".data] }

/-- Witness for C3 at a header with no colon at all. -/
theorem claim_C3_witness :
    (runMain urlOk allOk badHeaderArgs).exitCode = 1 ∧
    (runMain urlOk allOk badHeaderArgs).requestsIssued = 0 := by
  have h := claim_C3_bad_header_aborts urlOk allOk badHeaderArgs ["nocolon".data]
    "nocolon".data rfl (by decide) (by decide)
  exact ⟨h.2.1, h.2.2⟩

/-- C4: a body supplied with method GET, DELETE, HEAD, or OPTIONS makes
request building fail with the body/method configuration error; the same
body with POST, PUT, or PATCH is accepted and attached to the request. -/
theorem claim_C4_body_method_compat (parseUrl : List Char → Bool) (args : Args)
    (b : List Char) (hm : List (List Char × List Char))
    (hhdr : parseHeaders args.headers = .ok hm)
    (hurl : parseUrl (add_http_if_missing args.addr) = true)
    (hbody : args.body = some b) :
    ((args.method = .GET ∨ args.method = .DELETE ∨ args.method = .HEAD ∨
        args.method = .OPTIONS) →
      build_request parseUrl args = .error .bodyNotAllowed) ∧
    ((args.method = .POST ∨ args.method = .PUT ∨ args.method = .PATCH) →
      build_request parseUrl args
        = .ok { method := args.method, url := add_http_if_missing args.addr,
                headers := hm, body := some b }) := by
  constructor <;> intro hmth
  · have hne : ¬ (args.method = .POST ∨ args.method = .PUT ∨ args.method = .PATCH) := by
      rcases hmth with h | h | h | h <;> rw [h] <;> decide
    unfold build_request
    rw [hhdr]
    simp [hurl, hbody, hne]
  · unfold build_request
    rw [hhdr]
    simp [hurl, hbody, hmth]

def bodyGetArgs : Args :=
  { addr := "example.com".data, count := 1, method := .GET, body := some "x".data,
    delay := 0, expected_code := 200, logs := false, headers := none }

def bodyPostArgs : Args := { bodyGetArgs with method := .POST }

/-- Witness for C4: the same body is rejected with GET and accepted with
POST. -/
theorem claim_C4_witness :
    build_request urlOk bodyGetArgs = .error .bodyNotAllowed ∧
    build_request urlOk bodyPostArgs
      = .ok { method := .POST, url := add_http_if_missing bodyPostArgs.addr,
              headers := [], body := some "x".data } :=
  ⟨(claim_C4_body_method_compat urlOk bodyGetArgs "x".data [] rfl rfl rfl).1 (Or.inl rfl),
   (claim_C4_body_method_compat urlOk bodyPostArgs "x".data [] rfl rfl rfl).2 (Or.inl rfl)⟩

def argsC7 : Args :=
  { addr := "example.com".data, count := 10, method := .GET, body := none,
    delay := 0, expected_code := 200, logs := true, headers := none }

def respondC7 : Nat → ExecOutcome := fun i =>
  if i < 3 then .response 404 [] else .response 200 []

/-- C7 counterexample: in the `count = 10`, `expected = 200` scenario with 3
responses of status 404 and 7 of status 200, the log file does not receive
exactly 7 INFO lines — the final summary line is also logged at INFO level,
so the conjunction claimed (successes 7, failures 3, 3 ERROR lines, 7 INFO
lines) is false. -/
theorem claim_C7_counterexample :
    ¬ ((runMain urlOk respondC7 argsC7).successes = 7 ∧
       (runMain urlOk respondC7 argsC7).fails = 3 ∧
       (runMain urlOk respondC7 argsC7).log.count .error = 3 ∧
       (runMain urlOk respondC7 argsC7).log.count .info = 7) := by
  decide

/-- C7 amended: in that scenario the final counts are successes 7 and
failures 3, and the log file receives exactly 3 ERROR lines and exactly 8
INFO lines (the 7 per-success lines plus the final summary line). -/
theorem claim_C7_amended_log_lines :
    (runMain urlOk respondC7 argsC7).successes = 7 ∧
    (runMain urlOk respondC7 argsC7).fails = 3 ∧
    (runMain urlOk respondC7 argsC7).log.count .error = 3 ∧
    (runMain urlOk respondC7 argsC7).log.count .info = 8 := by
  decide

/-- C8: the process exits with code 0 whenever the run completes, whatever
the individual outcomes; it exits with code 1 exactly when request building
fails, and then no request has been issued; the only build failures are bad
URL, malformed header, and body on a disallowed method. -/
theorem claim_C8_exit_codes (parseUrl : List Char → Bool) (respond : Nat → ExecOutcome)
    (args : Args) :
    (∀ t, build_request parseUrl args = .ok t → (runMain parseUrl respond args).exitCode = 0) ∧
    (∀ e, build_request parseUrl args = .error e →
      (runMain parseUrl respond args).exitCode = 1 ∧
      (runMain parseUrl respond args).requestsIssued = 0) ∧
    (∀ e : BuildError, (∃ s, e = .invalidHeader s) ∨ (∃ s, e = .invalidUrl s) ∨
      e = .bodyNotAllowed) := by
  refine ⟨?_, ?_, ?_⟩
  · intro t ht
    simp [runMain, ht]
  · intro e he
    constructor <;> simp [runMain, he]
  · intro e
    cases e with
    | invalidHeader s => exact Or.inl ⟨s, rfl⟩
    | invalidUrl s => exact Or.inr (Or.inl ⟨s, rfl⟩)
    | bodyNotAllowed => exact Or.inr (Or.inr rfl)

/-- Witness for C8: a valid configuration completes with exit code 0; a
malformed-header configuration exits with code 1 and issues no request. -/
theorem claim_C8_witness :
    (runMain urlOk allOk sampleArgs).exitCode = 0 ∧
    (runMain urlOk allOk badHeaderArgs).exitCode = 1 ∧
    (runMain urlOk allOk badHeaderArgs).requestsIssued = 0 :=
  ⟨(claim_C8_exit_codes urlOk allOk sampleArgs).1 sampleRequest rfl,
   ((claim_C8_exit_codes urlOk allOk badHeaderArgs).2.1 (.invalidHeader "nocolon".data) rfl).1,
   ((claim_C8_exit_codes urlOk allOk badHeaderArgs).2.1 (.invalidHeader "nocolon".data) rfl).2⟩

/-- C10: `count = 0` is accepted without any configuration error (request
building never reads `count`); no execution is launched, no request is
issued, and the run completes with successes 0, failures 0, exit code 0. -/
theorem claim_C10_zero_count (parseUrl : List Char → Bool) (respond : Nat → ExecOutcome)
    (args : Args) (t : Request) (hok : build_request parseUrl args = .ok t)
    (hc : args.count = 0) :
    (runMain parseUrl respond args).requestsIssued = 0 ∧
    (runMain parseUrl respond args).successes = 0 ∧
    (runMain parseUrl respond args).fails = 0 ∧
    (runMain parseUrl respond args).exitCode = 0 ∧
    ∀ n : Nat, build_request parseUrl { args with count := n } = build_request parseUrl args := by
  refine ⟨?_, ?_, ?_, ?_, ?_⟩
  · simp [runMain, hok, hc]
  · simp [runMain, hok, hc]
  · simp [runMain, hok, hc]
  · simp [runMain, hok]
  · intro n
    cases args
    rfl

def zeroCountArgs : Args := { sampleArgs with count := 0 }

/-- Witness for C10 at a concrete valid configuration with `count = 0`. -/
theorem claim_C10_witness :
    (runMain urlOk allOk zeroCountArgs).requestsIssued = 0 ∧
    (runMain urlOk allOk zeroCountArgs).successes = 0 ∧
    (runMain urlOk allOk zeroCountArgs).fails = 0 ∧
    (runMain urlOk allOk zeroCountArgs).exitCode = 0 := by
  have h := claim_C10_zero_count urlOk allOk zeroCountArgs sampleRequest rfl rfl
  exact ⟨h.1, h.2.1, h.2.2.1, h.2.2.2.1⟩

end HttpStress
